import Mathlib

/-!
Verification of `ScalerChoice` from
`autoPyTorch/pipeline/components/preprocessing/tabular_preprocessing/scaling/__init__.py`.

The module composes a hierarchical configuration space: a top-level
categorical hyperparameter named `__choice__` over the available scaler
variants, plus one nested sub-space per variant.  We embed the data model
(dataset-property bags, the variant registry, search-space overrides) and
the method `get_hyperparameter_search_space` as pure Lean functions, with
Python exceptions modelled as `Except` errors.
-/

namespace ScalerChoiceSpec

/-- A value stored in a dataset-properties bag.  The code only ever checks
`isinstance(value, List)` on these, so we distinguish list values from a few
representative non-list values (string, integer, Python `None`). -/
inductive PropValue where
  | list (cols : List String) : PropValue
  | str (s : String) : PropValue
  | int (n : Int) : PropValue
  | null : PropValue
deriving DecidableEq, Repr

/-- Whether a property value is a Python `list` (`isinstance(_, List)`). -/
def PropValue.isList : PropValue → Bool
  | .list _ => true
  | _ => false

/-- A dataset-properties bag: a string-keyed mapping, embedded as an
association list (first binding of a key wins on lookup). -/
abbrev DatasetProps := List (String × PropValue)

/-- Dictionary lookup `props[key]` returning `none` on a missing key. -/
def lookupProp : DatasetProps → String → Option PropValue
  | [], _ => none
  | (k, v) :: rest, key => if k = key then some v else lookupProp rest key

/-- Key-presence test (Python `in`) for a dataset-properties bag. -/
def hasKey (props : DatasetProps) (key : String) : Bool :=
  (lookupProp props key).isSome

/-- Python dictionary merge of `base` under `upd`: every key of `base`
(updated values where `upd` rebinds them) followed by the keys only `upd`
has. -/
def mergeProps (base upd : DatasetProps) : DatasetProps :=
  base.map (fun p =>
    match lookupProp upd p.1 with
    | some v => (p.1, v)
    | none => p)
  ++ upd.filter (fun (p : String × PropValue) => !(hasKey base p.1))

/-- A registered scaler component, reduced to the capability contract the
choice engine reads: an applicability predicate over dataset properties and
a per-variant sub-space constructor (the sub-space itself is opaque to the
engine; we keep it as a list of parameter names). -/
structure ScalerComponent where
  applicable : DatasetProps → Bool
  subspace : DatasetProps → List String

/-- The variant registry: name-keyed components in insertion order. -/
abbrev Registry := List (String × ScalerComponent)

/-- Lookup of a name in the registry, `none` when the name is absent. -/
def lookupComp : Registry → String → Option ScalerComponent
  | [], _ => none
  | (k, c) :: rest, n => if k = n then some c else lookupComp rest n

/-- The names of a registry, in order (`dict.keys()`). -/
def registryKeys (r : Registry) : List String := r.map (fun p => p.1)

/-- The `__choice__` entry of a search-space update
(`HyperparameterSearchSpace`): an allowed value range and a default. -/
structure ChoiceUpdate where
  value_range : List String
  default_value : String
deriving DecidableEq, Repr

/-- The `__choice__` categorical hyperparameter of the composed space. -/
structure CategoricalHP where
  choices : List String
  default_value : String
deriving DecidableEq, Repr

/-- The composed configuration space: the `__choice__` categorical plus the
per-variant nested sub-spaces grafted under it, in grafting order. -/
structure ConfigurationSpace where
  choice : CategoricalHP
  children : List (String × List String)
deriving DecidableEq, Repr

/-- The errors `get_hyperparameter_search_space` can raise.  Python
`ValueError`s and the `assert` are kept distinct, as distinct constructors. -/
inductive GhssError where
  /-- a required dataset-property key is absent -/
  | missingDatasetProperty : GhssError
  /-- an include-list name is unknown or inapplicable -/
  | invalidInclude (names : List String) : GhssError
  /-- the applicability filter left no variant ("no scalers found") -/
  | noApplicableVariant : GhssError
  /-- the override value range is not a subset of the available names -/
  | invalidOverrideDomain (range : List String) : GhssError
  /-- the `assert len(value_range) == 1` failed (Python `AssertionError`) -/
  | assertionFailure : GhssError
  /-- singleton override range incompatible with a no-numerical dataset -/
  | incompatibleDatasetOverride (range : List String) : GhssError
  /-- include list without the no-op variant on a no-numerical dataset -/
  | incompatibleDataset (names : List String) : GhssError
  /-- a categorical default value outside its own choices -/
  | invalidDefault (d : String) : GhssError
  /-- empty choices handed to the categorical constructor -/
  | emptyChoices : GhssError
  /-- `available_scalers[name]` lookup failed (Python `KeyError`) -/
  | keyError (name : String) : GhssError
deriving DecidableEq, Repr

/-- The mutable attributes of a `ScalerChoice` instance that
`get_hyperparameter_search_space` reads or writes, together with the
process-wide variant registry it draws components from. -/
structure ScalerChoiceState where
  registry : Registry
  dataset_properties : DatasetProps
  configuration_space : Option ConfigurationSpace

/-- The fixed preference order of lines 69-77 of the source. -/
def scalerDefaults : List String :=
  ["StandardScaler", "Normalizer", "MinMaxScaler", "PowerTransformer",
   "QuantileTransformer", "RobustScaler", "NoScaler"]

/-- The two `continue` conditions of the default-resolution loop
(lines 80-83): the candidate is absent from a given include list, or
present in a given exclude list. -/
def defaultSkipped (inc? exc? : Option (List String)) (d : String) : Bool :=
  (match inc? with
   | some inc => !(inc.contains d)
   | none => false)
  ||
  (match exc? with
   | some exc => exc.contains d
   | none => false)

/-- The loop body of lines 78-85: walk the remaining candidates, keep the
first one that is in `availableKeys` and not skipped. -/
def resolveDefaultAux (availableKeys : List String)
    (inc? exc? : Option (List String)) : List String → Option String
  | [] => none
  | d :: rest =>
    if availableKeys.contains d then
      if defaultSkipped inc? exc? d then
        resolveDefaultAux availableKeys inc? exc? rest
      else
        some d
    else
      resolveDefaultAux availableKeys inc? exc? rest

/-- Lines 68-85 of the source: when no explicit default is given, scan the
fixed preference order; `none` when the scan exhausts without a match. -/
def resolveDefault (availableKeys : List String)
    (inc? exc? : Option (List String)) : Option String :=
  resolveDefaultAux availableKeys inc? exc? scalerDefaults

/-- Lines 87-88 of the source: the value under `numerical_columns` when it
is a Python list, and `[]` otherwise.  (In `get_hyperparameter_search_space`
the key is always present at this point, the property check having run.) -/
def numericalColumnsOf (props : DatasetProps) : List String :=
  match lookupProp props "numerical_columns" with
  | some (PropValue.list cols) => cols
  | _ => []

/-- Embedding of `_check_dataset_properties` (lines 135-147 of the source): both
`numerical_columns` and `categorical_columns` must be present.  That this
check runs before the applicability filter is modelled from the spec: the
call site lives in the `autoPyTorchChoice` base class, which is not under
`src/`, and the spec requires the engine to fail fast before filtering. -/
def check_dataset_properties (props : DatasetProps) : Except GhssError Unit :=
  if hasKey props "numerical_columns" && hasKey props "categorical_columns" then
    Except.ok ()
  else
    Except.error GhssError.missingDatasetProperty

/-- Modelled from the spec: `get_available_components` of the
`autoPyTorchChoice` base class is not under `src/`.  Per the spec, an
include list restricts the candidates to exactly that name set intersected
with the registry, an include name unknown to the registry or inapplicable
being an error; an exclude list removes names unconditionally; each
applicability predicate of each remaining component is then evaluated against the
dataset properties and non-applicable components are dropped silently. -/
def get_available_components (registry : Registry) (props : DatasetProps)
    (inc? exc? : Option (List String)) : Except GhssError Registry :=
  let baseE : Except GhssError Registry :=
    match inc? with
    | some inc =>
      if inc.all (fun n =>
          match lookupComp registry n with
          | some c => c.applicable props
          | none => false) then
        Except.ok (registry.filter (fun (p : String × ScalerComponent) => inc.contains p.1))
      else
        Except.error (GhssError.invalidInclude inc)
    | none => Except.ok registry
  match baseE with
  | Except.error e => Except.error e
  | Except.ok base =>
    let afterExclude :=
      match exc? with
      | some exc => base.filter (fun (p : String × ScalerComponent) => !(exc.contains p.1))
      | none => base
    Except.ok (afterExclude.filter (fun (p : String × ScalerComponent) => p.2.applicable props))

/-- Model of `ConfigSpace.hyperparameters.CategoricalHyperparameter` construction,
as the ConfigSpace library behaves: with no explicit default the first
choice becomes the default; an explicit default outside the choices raises
("Illegal default value"). -/
def mkCategorical (choices : List String) (default? : Option String) :
    Except GhssError CategoricalHP :=
  match default? with
  | some d =>
    if choices.contains d then Except.ok ⟨choices, d⟩
    else Except.error (GhssError.invalidDefault d)
  | none =>
    match choices with
    | [] => Except.error GhssError.emptyChoices
    | c :: _ => Except.ok ⟨choices, c⟩

/-- Lines 123-129 of the source: for each name of the `__choice__` domain,
look the component up in `available_scalers` (a missing name is a Python
`KeyError`) and graft its sub-space, in domain order. -/
def composeChildren (avail : Registry) (props : DatasetProps) :
    List String → Except GhssError (List (String × List String))
  | [] => Except.ok []
  | n :: rest =>
    match lookupComp avail n with
    | none => Except.error (GhssError.keyError n)
    | some comp =>
      match composeChildren avail props rest with
      | Except.error e => Except.error e
      | Except.ok tail => Except.ok ((n, comp.subspace props) :: tail)

/-- Lines 56-59 of the source: a `None` argument becomes an empty bag, then
the argument bag is merged over the stored bag of the instance. -/
def mergedProps (st : ScalerChoiceState) (dataset_properties : Option DatasetProps) :
    DatasetProps :=
  mergeProps st.dataset_properties (dataset_properties.getD [])

/-- Lines 68-85 of the source, as a whole: an explicit default is kept
verbatim, otherwise the preference-order scan decides (possibly nothing). -/
def resolvedDefault (default? : Option String) (availableKeys : List String)
    (inc? exc? : Option (List String)) : Option String :=
  match default? with
  | some d => some d
  | none => resolveDefault availableKeys inc? exc?

/-- Lines 90-119 of the source: the construction of the `__choice__`
categorical hyperparameter.  With a `__choice__` override (lines 90-105):
the override range must be a subset of the available names (line 92), then
on a dataset without numerical columns the range must be a singleton
(the `assert` on line 98) containing `NoScaler` (lines 99-101), and the
categorical is built from the range and default of the override.  Without an
override (lines 106-119): a dataset without numerical columns forces the
domain holding only `NoScaler` with default `NoScaler`, erroring when a given
include list omits `NoScaler` (lines 110-112); otherwise the domain is all
available names with the resolved default. -/
def buildPreprocessor (availableKeys numerical_columns : List String)
    (inc? : Option (List String)) (default? : Option String)
    (updates : Option ChoiceUpdate) : Except GhssError CategoricalHP :=
  match updates with
  | some ch =>
    if !(ch.value_range.all (fun v => availableKeys.contains v)) then
      Except.error (GhssError.invalidOverrideDomain ch.value_range)
    else if numerical_columns.isEmpty && !(ch.value_range.length == 1) then
      Except.error GhssError.assertionFailure
    else if numerical_columns.isEmpty && !(ch.value_range.contains "NoScaler") then
      Except.error (GhssError.incompatibleDatasetOverride ch.value_range)
    else
      mkCategorical ch.value_range (some ch.default_value)
  | none =>
    if numerical_columns.isEmpty then
      match inc? with
      | some inc =>
        if !(inc.contains "NoScaler") then
          Except.error (GhssError.incompatibleDataset inc)
        else
          mkCategorical ["NoScaler"] (some "NoScaler")
      | none => mkCategorical ["NoScaler"] (some "NoScaler")
    else
      mkCategorical availableKeys default?

/-- Embedding of `ScalerChoice.get_hyperparameter_search_space` (lines 49-133 of the
source).  `updates` is the `__choice__` entry of
`self._get_search_space_updates()` (the method itself lives in the base
class outside `src/`, so the override is taken as an input); per-variant
nested updates are forwarded opaquely inside the `subspace` of each component.
The merged dataset properties are validated first (see
`check_dataset_properties`), the applicability filter runs, an empty result
is "no scalers found" (line 66), the default is resolved, the `__choice__`
categorical is built (`buildPreprocessor`), and the children are grafted
(`composeChildren`). -/
def get_hyperparameter_search_space
    (st : ScalerChoiceState)
    (dataset_properties : Option DatasetProps)
    (default? : Option String)
    (inc? exc? : Option (List String))
    (updates : Option ChoiceUpdate) : Except GhssError ConfigurationSpace :=
  let props := mergedProps st dataset_properties
  match check_dataset_properties props with
  | Except.error e => Except.error e
  | Except.ok _ =>
    match get_available_components st.registry props inc? exc? with
    | Except.error e => Except.error e
    | Except.ok available =>
      if available.isEmpty then
        Except.error GhssError.noApplicableVariant
      else
        match buildPreprocessor (registryKeys available) (numericalColumnsOf props) inc?
            (resolvedDefault default? (registryKeys available) inc? exc?) updates with
        | Except.error e => Except.error e
        | Except.ok preprocessor =>
          match composeChildren available props preprocessor.choices with
          | Except.error e => Except.error e
          | Except.ok children => Except.ok ⟨preprocessor, children⟩

/-- Whether a call outcome is the `IncompatibleDatasetOverride` error
(lines 99-101 of the source). -/
def isIncompatibleDatasetOverrideError :
    Except GhssError ConfigurationSpace → Bool
  | Except.error (GhssError.incompatibleDatasetOverride _) => true
  | _ => false

/-- The effect of a call on the instance: lines 131-132 assign the
most-recent-result cache, and they run after every raise of the method, so
a Python exception leaves the state as it was. -/
def runGHSS (st : ScalerChoiceState)
    (dataset_properties : Option DatasetProps)
    (default? : Option String)
    (inc? exc? : Option (List String))
    (updates : Option ChoiceUpdate) : ScalerChoiceState :=
  match get_hyperparameter_search_space st dataset_properties default? inc? exc? updates with
  | Except.ok cs =>
    { st with
      configuration_space := some cs,
      dataset_properties :=
        mergeProps st.dataset_properties (dataset_properties.getD []) }
  | Except.error _ => st

/-! ### Sample components and states used in concrete instantiations -/

/-- A scaler component applicable to everything, with an empty sub-space. -/
def alwaysComp : ScalerComponent := ⟨fun _ => true, fun _ => []⟩

/-- A scaler component applicable to everything, with one sub-parameter. -/
def meanComp : ScalerComponent := ⟨fun _ => true, fun _ => ["with_mean"]⟩

/-- A state whose registry holds `NoScaler` and `StandardScaler`. -/
def builtinState : ScalerChoiceState :=
  ⟨[("NoScaler", alwaysComp), ("StandardScaler", meanComp)], [], none⟩

/-- A state whose registry holds only a third-party scaler named `Custom`. -/
def customOnlyState : ScalerChoiceState := ⟨[("Custom", meanComp)], [], none⟩

/-- Properties with one numerical column and no categorical columns. -/
def numericalProps : DatasetProps :=
  [("numerical_columns", PropValue.list ["c1"]),
   ("categorical_columns", PropValue.list [])]

/-- Properties with no numerical columns and one categorical column. -/
def emptyNumericalProps : DatasetProps :=
  [("numerical_columns", PropValue.list []),
   ("categorical_columns", PropValue.list ["c1"])]

/-- Properties whose `numerical_columns` value is a string, not a list. -/
def nonListNumericalProps : DatasetProps :=
  [("numerical_columns", PropValue.str "c1"),
   ("categorical_columns", PropValue.list [])]

/-! ### Helper lemmas -/

theorem contains_true_iff_mem (l : List String) (a : String) :
    l.contains a = true ↔ a ∈ l := by
  induction l with
  | nil => simp
  | cons x xs ih =>
    simp only [List.contains_cons, Bool.or_eq_true, beq_iff_eq, List.mem_cons, ih]

theorem lookupComp_isSome_mem (r : Registry) (n : String)
    (h : (lookupComp r n).isSome = true) : n ∈ registryKeys r := by
  induction r with
  | nil => simp [lookupComp] at h
  | cons p rest ih =>
    obtain ⟨k, c⟩ := p
    simp only [lookupComp] at h
    by_cases hk : k = n
    · simp [registryKeys, hk]
    · rw [if_neg hk] at h
      simp only [registryKeys, List.map_cons, List.mem_cons]
      exact Or.inr (ih h)

theorem composeChildren_ok_lookup (avail : Registry) (props : DatasetProps)
    (names : List String) (children : List (String × List String))
    (h : composeChildren avail props names = Except.ok children) :
    ∀ n ∈ names, (lookupComp avail n).isSome = true := by
  induction names generalizing children with
  | nil => intro n hn; cases hn
  | cons m rest ih =>
    intro n hn
    simp only [composeChildren] at h
    cases hl : lookupComp avail m with
    | none => rw [hl] at h; cases h
    | some comp =>
      rw [hl] at h
      cases hr : composeChildren avail props rest with
      | error e => rw [hr] at h; cases h
      | ok tail =>
        rw [hr] at h
        cases hn with
        | head => rw [hl]; rfl
        | tail _ hmem => exact ih tail hr n hmem

theorem mkCategorical_ok_default_mem (choices : List String) (default? : Option String)
    (hp : CategoricalHP) (h : mkCategorical choices default? = Except.ok hp) :
    hp.default_value ∈ hp.choices := by
  cases default? with
  | some d =>
    simp only [mkCategorical] at h
    by_cases hc : choices.contains d = true
    · rw [if_pos hc] at h
      injection h with h
      rw [← h]
      exact (contains_true_iff_mem choices d).mp hc
    · rw [if_neg hc] at h
      cases h
  | none =>
    cases choices with
    | nil => cases h
    | cons c rest =>
      injection h with h
      rw [← h]
      exact List.mem_cons_self c rest

theorem buildPreprocessor_ok_default_mem (availableKeys numerical_columns : List String)
    (inc? : Option (List String)) (default? : Option String)
    (updates : Option ChoiceUpdate) (hp : CategoricalHP)
    (h : buildPreprocessor availableKeys numerical_columns inc? default? updates
      = Except.ok hp) :
    hp.default_value ∈ hp.choices := by
  cases updates with
  | some ch =>
    simp only [buildPreprocessor] at h
    split at h
    · cases h
    · split at h
      · cases h
      · split at h
        · cases h
        · exact mkCategorical_ok_default_mem _ _ _ h
  | none =>
    simp only [buildPreprocessor] at h
    split at h
    · cases inc? with
      | some inc =>
        simp only at h
        split at h
        · cases h
        · exact mkCategorical_ok_default_mem _ _ _ h
      | none => exact mkCategorical_ok_default_mem _ _ _ h
    · exact mkCategorical_ok_default_mem _ _ _ h

theorem defaultSkipped_not_eq (inc? exc? : Option (List String)) (d : String) :
    (!(defaultSkipped inc? exc? d)) =
      ((match inc? with | some inc => inc.contains d | none => true) &&
       (match exc? with | some exc => !(exc.contains d) | none => true)) := by
  cases inc? <;> cases exc? <;>
    simp [defaultSkipped, Bool.not_or, Bool.not_not]

theorem resolveDefaultAux_eq_find (availableKeys : List String)
    (inc? exc? : Option (List String)) (l : List String) :
    resolveDefaultAux availableKeys inc? exc? l =
      l.find? (fun d => availableKeys.contains d && !(defaultSkipped inc? exc? d)) := by
  induction l with
  | nil => rfl
  | cons d rest ih =>
    simp only [resolveDefaultAux, List.find?]
    cases hak : availableKeys.contains d with
    | false => simp [hak, ih]
    | true =>
      cases hskip : defaultSkipped inc? exc? d with
      | false => simp [hak, hskip]
      | true => simp [hak, hskip, ih]

theorem ghss_ok_inversion (st : ScalerChoiceState) (dp : Option DatasetProps)
    (default? : Option String) (inc? exc? : Option (List String))
    (updates : Option ChoiceUpdate) (cs : ConfigurationSpace)
    (hok : get_hyperparameter_search_space st dp default? inc? exc? updates
      = Except.ok cs) :
    ∃ available,
      get_available_components st.registry (mergedProps st dp) inc? exc?
        = Except.ok available ∧
      available.isEmpty = false ∧
      buildPreprocessor (registryKeys available)
        (numericalColumnsOf (mergedProps st dp)) inc?
        (resolvedDefault default? (registryKeys available) inc? exc?) updates
        = Except.ok cs.choice ∧
      composeChildren available (mergedProps st dp) cs.choice.choices
        = Except.ok cs.children := by
  simp only [get_hyperparameter_search_space] at hok
  split at hok
  · exact (Except.noConfusion hok)
  split at hok
  · exact (Except.noConfusion hok)
  rename_i available hav
  split at hok
  · exact (Except.noConfusion hok)
  rename_i hne
  split at hok
  · exact (Except.noConfusion hok)
  rename_i preprocessor hbp
  split at hok
  · exact (Except.noConfusion hok)
  rename_i children hcc
  injection hok with h
  subst h
  refine ⟨available, hav, ?_, hbp, hcc⟩
  revert hne
  cases available.isEmpty <;> simp

theorem ghss_buildPreprocessor_error (st : ScalerChoiceState) (dp : Option DatasetProps)
    (default? : Option String) (inc? exc? : Option (List String))
    (updates : Option ChoiceUpdate) (e : GhssError) (available : Registry)
    (hchk : check_dataset_properties (mergedProps st dp) = Except.ok ())
    (hav : get_available_components st.registry (mergedProps st dp) inc? exc?
      = Except.ok available)
    (hne : available.isEmpty = false)
    (hbp : buildPreprocessor (registryKeys available)
        (numericalColumnsOf (mergedProps st dp)) inc?
        (resolvedDefault default? (registryKeys available) inc? exc?) updates
      = Except.error e) :
    get_hyperparameter_search_space st dp default? inc? exc? updates
      = Except.error e := by
  simp only [get_hyperparameter_search_space, hchk, hav, hne, hbp,
    Bool.false_eq_true, if_false]

theorem ghss_ok_noscaler_of_no_numerical (st : ScalerChoiceState)
    (dp : Option DatasetProps) (default? : Option String)
    (inc? exc? : Option (List String)) (cs : ConfigurationSpace)
    (hnc : numericalColumnsOf (mergedProps st dp) = [])
    (hok : get_hyperparameter_search_space st dp default? inc? exc? none
      = Except.ok cs) :
    cs.choice.choices = ["NoScaler"] ∧ cs.choice.default_value = "NoScaler" := by
  obtain ⟨available, hav, hne, hbp, hcc⟩ :=
    ghss_ok_inversion st dp default? inc? exc? none cs hok
  rw [hnc] at hbp
  simp only [buildPreprocessor, List.isEmpty_nil, if_true] at hbp
  have hmk : mkCategorical ["NoScaler"] (some "NoScaler") = Except.ok cs.choice := by
    cases inc? with
    | none => exact hbp
    | some inc =>
      have hbp' : (if (!(inc.contains "NoScaler")) = true
          then Except.error (GhssError.incompatibleDataset inc)
          else mkCategorical ["NoScaler"] (some "NoScaler")) = Except.ok cs.choice := hbp
      cases hincl : inc.contains "NoScaler" with
      | false =>
        simp only [hincl, Bool.not_false, if_true] at hbp'
        exact (Except.noConfusion hbp')
      | true =>
        simp only [hincl, Bool.not_true, Bool.false_eq_true, if_false] at hbp'
        exact hbp'
  rw [show mkCategorical ["NoScaler"] (some "NoScaler")
      = Except.ok ⟨["NoScaler"], "NoScaler"⟩ from rfl] at hmk
  injection hmk with h
  rw [← h]
  exact ⟨rfl, rfl⟩

/-! ### Claim theorems -/

/-- C1: for every dataset-properties bag whose `numerical_columns` value is
an empty sequence, a call without a top-level `__choice__` override that
produces a configuration space produces a `__choice__` categorical whose
domain is exactly `["NoScaler"]` with `NoScaler` as its default, regardless
of which other variants are registered or applicable (the state, the
include/exclude lists and the explicit default are universally
quantified). -/
theorem noscaler_only_domain_when_no_numerical_columns
    (st : ScalerChoiceState) (dp : Option DatasetProps) (default? : Option String)
    (inc? exc? : Option (List String)) (cs : ConfigurationSpace)
    (hnum : lookupProp (mergedProps st dp) "numerical_columns"
      = some (PropValue.list []))
    (hok : get_hyperparameter_search_space st dp default? inc? exc? none
      = Except.ok cs) :
    cs.choice.choices = ["NoScaler"] ∧ cs.choice.default_value = "NoScaler" :=
  ghss_ok_noscaler_of_no_numerical st dp default? inc? exc? cs
    (by simp [numericalColumnsOf, hnum]) hok

/-- Witness for C1: spec Scenario 2 — a registry of `NoScaler` and
`StandardScaler`, no numerical columns, one categorical column, no
override. -/
theorem noscaler_only_domain_when_no_numerical_columns_witness :
    lookupProp (mergedProps builtinState (some emptyNumericalProps)) "numerical_columns"
      = some (PropValue.list []) ∧
    get_hyperparameter_search_space builtinState (some emptyNumericalProps)
        none none none none
      = Except.ok ⟨⟨["NoScaler"], "NoScaler"⟩, [("NoScaler", [])]⟩ ∧
    (ConfigurationSpace.mk ⟨["NoScaler"], "NoScaler"⟩ [("NoScaler", [])]).choice.choices
      = ["NoScaler"] ∧
    (ConfigurationSpace.mk ⟨["NoScaler"], "NoScaler"⟩ [("NoScaler", [])]).choice.default_value
      = "NoScaler" :=
  ⟨by decide, by rfl,
    noscaler_only_domain_when_no_numerical_columns builtinState
      (some emptyNumericalProps) none none none _ (by decide) (by rfl)⟩

/-- C10: for every dataset-properties bag in which the value under
`numerical_columns` is present but is not a list, a call without a
`__choice__` override that produces a space treats the dataset as having
zero numerical columns: the `__choice__` domain is `["NoScaler"]` with
default `NoScaler`, as for an empty list. -/
theorem non_list_numerical_value_treated_as_empty
    (st : ScalerChoiceState) (dp : Option DatasetProps) (default? : Option String)
    (inc? exc? : Option (List String)) (cs : ConfigurationSpace) (v : PropValue)
    (hnum : lookupProp (mergedProps st dp) "numerical_columns" = some v)
    (hv : v.isList = false)
    (hok : get_hyperparameter_search_space st dp default? inc? exc? none
      = Except.ok cs) :
    cs.choice.choices = ["NoScaler"] ∧ cs.choice.default_value = "NoScaler" := by
  refine ghss_ok_noscaler_of_no_numerical st dp default? inc? exc? cs ?_ hok
  cases v <;> simp_all [numericalColumnsOf, PropValue.isList]

/-- Witness for C10: `numerical_columns` bound to the string `"c1"`. -/
theorem non_list_numerical_value_treated_as_empty_witness :
    lookupProp (mergedProps builtinState (some nonListNumericalProps)) "numerical_columns"
      = some (PropValue.str "c1") ∧
    (PropValue.str "c1").isList = false ∧
    get_hyperparameter_search_space builtinState (some nonListNumericalProps)
        none none none none
      = Except.ok ⟨⟨["NoScaler"], "NoScaler"⟩, [("NoScaler", [])]⟩ ∧
    (ConfigurationSpace.mk ⟨["NoScaler"], "NoScaler"⟩ [("NoScaler", [])]).choice.choices
      = ["NoScaler"] ∧
    (ConfigurationSpace.mk ⟨["NoScaler"], "NoScaler"⟩ [("NoScaler", [])]).choice.default_value
      = "NoScaler" :=
  ⟨by decide, by decide, by rfl,
    non_list_numerical_value_treated_as_empty builtinState
      (some nonListNumericalProps) none none none _ (PropValue.str "c1")
      (by decide) (by decide) (by rfl)⟩

/-- C9: with no explicit default, the resolved default of lines 68-85 is
the first name of the fixed preference order `scalerDefaults` that is
present among the available names, is not absent from a given include
list, and is not present in a given exclude list. -/
theorem preference_scan_returns_first_eligible
    (availableKeys : List String) (inc? exc? : Option (List String)) :
    resolvedDefault none availableKeys inc? exc? =
      scalerDefaults.find? (fun d =>
        availableKeys.contains d &&
        ((match inc? with | some inc => inc.contains d | none => true) &&
         (match exc? with | some exc => !(exc.contains d) | none => true))) := by
  simp only [resolvedDefault, resolveDefault, resolveDefaultAux_eq_find]
  congr 1
  funext d
  rw [defaultSkipped_not_eq]

/-- C3: every configuration space a call produces has a `__choice__` domain
whose every name is a key of the available-variants set computed for that
call, and a `__choice__` default that is a member of its own domain. -/
theorem choice_domain_and_default_invariant
    (st : ScalerChoiceState) (dp : Option DatasetProps) (default? : Option String)
    (inc? exc? : Option (List String)) (updates : Option ChoiceUpdate)
    (cs : ConfigurationSpace) (available : Registry)
    (hav : get_available_components st.registry (mergedProps st dp) inc? exc?
      = Except.ok available)
    (hok : get_hyperparameter_search_space st dp default? inc? exc? updates
      = Except.ok cs) :
    (∀ n ∈ cs.choice.choices, n ∈ registryKeys available) ∧
    cs.choice.default_value ∈ cs.choice.choices := by
  obtain ⟨av2, hav2, hne, hbp, hcc⟩ :=
    ghss_ok_inversion st dp default? inc? exc? updates cs hok
  rw [hav] at hav2
  injection hav2 with hEq
  subst hEq
  constructor
  · intro n hn
    exact lookupComp_isSome_mem _ _ (composeChildren_ok_lookup _ _ _ _ hcc n hn)
  · exact buildPreprocessor_ok_default_mem _ _ _ _ _ _ hbp

/-- Witness for C3: spec Scenario 1 — a registry of `NoScaler` and
`StandardScaler`, numerical columns present, no
include/exclude/default/override. -/
theorem choice_domain_and_default_invariant_witness :
    get_available_components builtinState.registry
        (mergedProps builtinState (some numericalProps)) none none
      = Except.ok [("NoScaler", alwaysComp), ("StandardScaler", meanComp)] ∧
    get_hyperparameter_search_space builtinState (some numericalProps)
        none none none none
      = Except.ok ⟨⟨["NoScaler", "StandardScaler"], "StandardScaler"⟩,
          [("NoScaler", []), ("StandardScaler", ["with_mean"])]⟩ ∧
    "NoScaler" ∈ registryKeys [("NoScaler", alwaysComp), ("StandardScaler", meanComp)] ∧
    "StandardScaler"
      ∈ (CategoricalHP.mk ["NoScaler", "StandardScaler"] "StandardScaler").choices :=
  ⟨by rfl, by rfl,
    (choice_domain_and_default_invariant builtinState (some numericalProps)
      none none none none _ _ (by rfl) (by rfl)).1 "NoScaler" (by decide),
    (choice_domain_and_default_invariant builtinState (some numericalProps)
      none none none none _ _ (by rfl) (by rfl)).2⟩

/-- C2: when the value range of a top-level `__choice__` override is not a
subset of the available names, the call fails with the invalid-override-
domain error (reporting the offending range), and the instance state —
registry and most-recent-result cache (`configuration_space`,
`dataset_properties`) — is left unchanged. -/
theorem override_domain_not_subset_fails
    (st : ScalerChoiceState) (dp : Option DatasetProps) (default? : Option String)
    (inc? exc? : Option (List String)) (ch : ChoiceUpdate) (available : Registry)
    (hchk : check_dataset_properties (mergedProps st dp) = Except.ok ())
    (hav : get_available_components st.registry (mergedProps st dp) inc? exc?
      = Except.ok available)
    (hne : available.isEmpty = false)
    (hsub : ch.value_range.all (fun v => (registryKeys available).contains v) = false) :
    get_hyperparameter_search_space st dp default? inc? exc? (some ch)
      = Except.error (GhssError.invalidOverrideDomain ch.value_range) ∧
    runGHSS st dp default? inc? exc? (some ch) = st := by
  have herr : get_hyperparameter_search_space st dp default? inc? exc? (some ch)
      = Except.error (GhssError.invalidOverrideDomain ch.value_range) := by
    refine ghss_buildPreprocessor_error st dp default? inc? exc? (some ch)
      _ available hchk hav hne ?_
    simp only [buildPreprocessor, hsub, Bool.not_false, if_true]
  exact ⟨herr, by simp only [runGHSS, herr]⟩

/-- Witness for C2: override range `["Bogus"]` against the available set
of `NoScaler` and `StandardScaler`. -/
theorem override_domain_not_subset_fails_witness :
    check_dataset_properties (mergedProps builtinState (some numericalProps))
      = Except.ok () ∧
    get_available_components builtinState.registry
        (mergedProps builtinState (some numericalProps)) none none
      = Except.ok [("NoScaler", alwaysComp), ("StandardScaler", meanComp)] ∧
    ([("NoScaler", alwaysComp), ("StandardScaler", meanComp)] : Registry).isEmpty
      = false ∧
    (ChoiceUpdate.mk ["Bogus"] "Bogus").value_range.all
      (fun v => (registryKeys
        [("NoScaler", alwaysComp), ("StandardScaler", meanComp)]).contains v) = false ∧
    (get_hyperparameter_search_space builtinState (some numericalProps)
        none none none (some ⟨["Bogus"], "Bogus"⟩)
      = Except.error (GhssError.invalidOverrideDomain ["Bogus"]) ∧
    runGHSS builtinState (some numericalProps) none none none
        (some ⟨["Bogus"], "Bogus"⟩) = builtinState) :=
  ⟨by rfl, by rfl, by rfl, by decide,
    override_domain_not_subset_fails builtinState (some numericalProps)
      none none none ⟨["Bogus"], "Bogus"⟩ _ (by rfl) (by rfl) (by rfl) (by decide)⟩

/-- C5 counterexample: with no numerical columns, an override whose range
`["NoScaler", "StandardScaler"]` is not a singleton equal to `NoScaler`
fails with the `assert` of line 98 (an `AssertionError`), not with the
`IncompatibleDatasetOverride` error of lines 99-101 that the claim
requires for every such range. -/
theorem nonsingleton_override_not_incompatible_error :
    get_hyperparameter_search_space builtinState (some emptyNumericalProps)
        none none none (some ⟨["NoScaler", "StandardScaler"], "NoScaler"⟩)
      = Except.error GhssError.assertionFailure ∧
    isIncompatibleDatasetOverrideError
      (get_hyperparameter_search_space builtinState (some emptyNumericalProps)
        none none none (some ⟨["NoScaler", "StandardScaler"], "NoScaler"⟩)) = false :=
  ⟨by rfl, by rfl⟩

/-- C5 as amended: when `numerical_columns` is an empty sequence and a
top-level `__choice__` override is supplied whose range is a subset of the
available names, a non-singleton range fails the internal assertion
(`AssertionError`), and a singleton range not containing `NoScaler` fails
with the `IncompatibleDatasetOverride` error. -/
theorem empty_numerical_override_range_errors
    (st : ScalerChoiceState) (dp : Option DatasetProps) (default? : Option String)
    (inc? exc? : Option (List String)) (ch : ChoiceUpdate) (available : Registry)
    (hchk : check_dataset_properties (mergedProps st dp) = Except.ok ())
    (hav : get_available_components st.registry (mergedProps st dp) inc? exc?
      = Except.ok available)
    (hne : available.isEmpty = false)
    (hnum : lookupProp (mergedProps st dp) "numerical_columns"
      = some (PropValue.list []))
    (hsub : ch.value_range.all (fun v => (registryKeys available).contains v) = true) :
    (ch.value_range.length ≠ 1 →
      get_hyperparameter_search_space st dp default? inc? exc? (some ch)
        = Except.error GhssError.assertionFailure) ∧
    (ch.value_range.length = 1 → ch.value_range.contains "NoScaler" = false →
      get_hyperparameter_search_space st dp default? inc? exc? (some ch)
        = Except.error (GhssError.incompatibleDatasetOverride ch.value_range)) := by
  have hnc : numericalColumnsOf (mergedProps st dp) = [] := by
    simp [numericalColumnsOf, hnum]
  constructor
  · intro hlen
    have hlen' : (ch.value_range.length == 1) = false :=
      beq_eq_false_iff_ne.mpr hlen
    refine ghss_buildPreprocessor_error st dp default? inc? exc? (some ch)
      _ available hchk hav hne ?_
    simp only [buildPreprocessor, hsub, Bool.not_true, Bool.false_eq_true, if_false,
      hnc, List.isEmpty_nil, hlen', Bool.not_false, Bool.true_and, if_true]
  · intro hlen hnos
    have hlen' : (ch.value_range.length == 1) = true := by
      simp [hlen]
    refine ghss_buildPreprocessor_error st dp default? inc? exc? (some ch)
      _ available hchk hav hne ?_
    simp only [buildPreprocessor, hsub, Bool.not_true, Bool.false_eq_true, if_false,
      hnc, List.isEmpty_nil, hlen', Bool.not_true, Bool.true_and, Bool.and_false,
      hnos, Bool.not_false, if_true]

/-- Witness for the amended C5: spec Scenario 4 — no numerical columns,
override range `["StandardScaler"]`. -/
theorem empty_numerical_override_range_errors_witness :
    check_dataset_properties (mergedProps builtinState (some emptyNumericalProps))
      = Except.ok () ∧
    get_available_components builtinState.registry
        (mergedProps builtinState (some emptyNumericalProps)) none none
      = Except.ok [("NoScaler", alwaysComp), ("StandardScaler", meanComp)] ∧
    lookupProp (mergedProps builtinState (some emptyNumericalProps)) "numerical_columns"
      = some (PropValue.list []) ∧
    get_hyperparameter_search_space builtinState (some emptyNumericalProps)
        none none none (some ⟨["StandardScaler"], "StandardScaler"⟩)
      = Except.error (GhssError.incompatibleDatasetOverride ["StandardScaler"]) :=
  ⟨by rfl, by rfl, by decide,
    (empty_numerical_override_range_errors builtinState (some emptyNumericalProps)
      none none none ⟨["StandardScaler"], "StandardScaler"⟩ _ (by rfl) (by rfl)
      (by rfl) (by decide) (by decide)).2 (by decide) (by decide)⟩

/-- C6: when a top-level `__choice__` override passes the earlier
validations (range a subset of the available names; on a no-numerical
dataset the range is the singleton `["NoScaler"]`) but its stated default
lies outside its own value range, the call fails with the
illegal-default-value error the categorical constructor raises, instead of
composing a space. -/
theorem override_default_outside_range_fails
    (st : ScalerChoiceState) (dp : Option DatasetProps) (default? : Option String)
    (inc? exc? : Option (List String)) (ch : ChoiceUpdate) (available : Registry)
    (hchk : check_dataset_properties (mergedProps st dp) = Except.ok ())
    (hav : get_available_components st.registry (mergedProps st dp) inc? exc?
      = Except.ok available)
    (hne : available.isEmpty = false)
    (hsub : ch.value_range.all (fun v => (registryKeys available).contains v) = true)
    (hnum : (numericalColumnsOf (mergedProps st dp)).isEmpty = false ∨
      ch.value_range = ["NoScaler"])
    (hdef : ch.value_range.contains ch.default_value = false) :
    get_hyperparameter_search_space st dp default? inc? exc? (some ch)
      = Except.error (GhssError.invalidDefault ch.default_value) := by
  refine ghss_buildPreprocessor_error st dp default? inc? exc? (some ch)
    _ available hchk hav hne ?_
  rcases hnum with h | h
  · simp only [buildPreprocessor, hsub, Bool.not_true, Bool.false_eq_true, if_false,
      h, Bool.false_and, mkCategorical, hdef, if_true]
  · rw [h] at hsub hdef
    have hmem : "NoScaler" ∈ registryKeys available := by simpa using hsub
    have hneq : ¬ (ch.default_value = "NoScaler") := by simpa using hdef
    simp [buildPreprocessor, h, mkCategorical, hmem, hneq]

/-- Witness for C6: override range `["StandardScaler"]` with default
`NoScaler`, on a dataset with numerical columns. -/
theorem override_default_outside_range_fails_witness :
    check_dataset_properties (mergedProps builtinState (some numericalProps))
      = Except.ok () ∧
    (numericalColumnsOf (mergedProps builtinState (some numericalProps))).isEmpty
      = false ∧
    (ChoiceUpdate.mk ["StandardScaler"] "NoScaler").value_range.contains
      (ChoiceUpdate.mk ["StandardScaler"] "NoScaler").default_value = false ∧
    get_hyperparameter_search_space builtinState (some numericalProps)
        none none none (some ⟨["StandardScaler"], "NoScaler"⟩)
      = Except.error (GhssError.invalidDefault "NoScaler") :=
  ⟨by rfl, by decide, by decide,
    override_default_outside_range_fails builtinState (some numericalProps)
      none none none ⟨["StandardScaler"], "NoScaler"⟩ _ (by rfl) (by rfl) (by rfl)
      (by decide) (Or.inl (by decide)) (by decide)⟩

/-- C7: a merged dataset-properties bag missing `numerical_columns` or
`categorical_columns` makes the call fail with the missing-property error,
for every registry and every include/exclude/default/override — in
particular for registries on which the applicability filter would itself
fail, so the property check fires before filtering. -/
theorem missing_property_fails_before_filtering
    (st : ScalerChoiceState) (dp : Option DatasetProps) (default? : Option String)
    (inc? exc? : Option (List String)) (updates : Option ChoiceUpdate)
    (hmiss : hasKey (mergedProps st dp) "numerical_columns" = false ∨
             hasKey (mergedProps st dp) "categorical_columns" = false) :
    get_hyperparameter_search_space st dp default? inc? exc? updates
      = Except.error GhssError.missingDatasetProperty := by
  have hchk : check_dataset_properties (mergedProps st dp)
      = Except.error GhssError.missingDatasetProperty := by
    rcases hmiss with h | h <;> simp [check_dataset_properties, h]
  simp only [get_hyperparameter_search_space, hchk]

/-- Witness for C7: a bag without `categorical_columns`, on an empty
registry (where filtering alone would have raised "no scalers found"). -/
theorem missing_property_fails_before_filtering_witness :
    hasKey (mergedProps ⟨[], [], none⟩
        (some [("numerical_columns", PropValue.list [])])) "categorical_columns"
      = false ∧
    get_hyperparameter_search_space ⟨[], [], none⟩
        (some [("numerical_columns", PropValue.list [])]) none none none none
      = Except.error GhssError.missingDatasetProperty :=
  ⟨by decide,
    missing_property_fails_before_filtering ⟨[], [], none⟩
      (some [("numerical_columns", PropValue.list [])]) none none none none
      (Or.inr (by decide))⟩

/-- C8: when `numerical_columns` is an empty sequence, no `__choice__`
override is given, and an include list without `NoScaler` is given, the
call fails with the incompatible-dataset error of lines 110-112. -/
theorem include_without_noscaler_empty_numerical_fails
    (st : ScalerChoiceState) (dp : Option DatasetProps) (default? : Option String)
    (exc? : Option (List String)) (inc : List String) (available : Registry)
    (hchk : check_dataset_properties (mergedProps st dp) = Except.ok ())
    (hav : get_available_components st.registry (mergedProps st dp) (some inc) exc?
      = Except.ok available)
    (hne : available.isEmpty = false)
    (hnum : lookupProp (mergedProps st dp) "numerical_columns"
      = some (PropValue.list []))
    (hninc : inc.contains "NoScaler" = false) :
    get_hyperparameter_search_space st dp default? (some inc) exc? none
      = Except.error (GhssError.incompatibleDataset inc) := by
  refine ghss_buildPreprocessor_error st dp default? (some inc) exc? none
    _ available hchk hav hne ?_
  have hnc : numericalColumnsOf (mergedProps st dp) = [] := by
    simp [numericalColumnsOf, hnum]
  simp only [buildPreprocessor, hnc, List.isEmpty_nil, if_true, hninc,
    Bool.not_false]

/-- Witness for C8: include `["StandardScaler"]` on a dataset without
numerical columns. -/
theorem include_without_noscaler_empty_numerical_fails_witness :
    check_dataset_properties (mergedProps builtinState (some emptyNumericalProps))
      = Except.ok () ∧
    get_available_components builtinState.registry
        (mergedProps builtinState (some emptyNumericalProps))
        (some ["StandardScaler"]) none
      = Except.ok [("StandardScaler", meanComp)] ∧
    (["StandardScaler"] : List String).contains "NoScaler" = false ∧
    get_hyperparameter_search_space builtinState (some emptyNumericalProps)
        none (some ["StandardScaler"]) none none
      = Except.error (GhssError.incompatibleDataset ["StandardScaler"]) :=
  ⟨by rfl, by rfl, by decide,
    include_without_noscaler_empty_numerical_fails builtinState
      (some emptyNumericalProps) none none ["StandardScaler"] _ (by rfl) (by rfl)
      (by rfl) (by decide) (by decide)⟩

/-- C4 counterexample: a registry holding only a third-party scaler named
`Custom`, numerical columns present, no include/exclude and no explicit
default.  Every name of the preference order is absent from the available
set, so the scan finds no candidate — yet the call succeeds instead of
failing with a no-default-found error: the categorical falls back to the
first domain member as its default. -/
theorem scan_exhausted_call_succeeds :
    resolveDefault (registryKeys [("Custom", meanComp)]) none none = none ∧
    get_available_components customOnlyState.registry
        (mergedProps customOnlyState (some numericalProps)) none none
      = Except.ok [("Custom", meanComp)] ∧
    get_hyperparameter_search_space customOnlyState (some numericalProps)
        none none none none
      = Except.ok ⟨⟨["Custom"], "Custom"⟩, [("Custom", ["with_mean"])]⟩ :=
  ⟨by decide, by rfl, by rfl⟩

/-- C4 as amended: when no explicit default is given and the
preference-order scan finds no candidate, the call does not fail on that
account: in the no-override branch with numerical columns present it still
composes a space whose `__choice__` domain is all available names, the
default falling back to the first of them (the behavior of the categorical
constructor for an unset default). -/
theorem scan_exhausted_default_falls_back
    (st : ScalerChoiceState) (dp : Option DatasetProps)
    (inc? exc? : Option (List String)) (cs : ConfigurationSpace)
    (available : Registry)
    (hav : get_available_components st.registry (mergedProps st dp) inc? exc?
      = Except.ok available)
    (hnum : (numericalColumnsOf (mergedProps st dp)).isEmpty = false)
    (hscan : resolveDefault (registryKeys available) inc? exc? = none)
    (hok : get_hyperparameter_search_space st dp none inc? exc? none
      = Except.ok cs) :
    cs.choice.choices = registryKeys available ∧
    cs.choice.choices.head? = some cs.choice.default_value := by
  obtain ⟨av2, hav2, hne, hbp, hcc⟩ :=
    ghss_ok_inversion st dp none inc? exc? none cs hok
  rw [hav] at hav2
  injection hav2 with hEq
  subst hEq
  simp only [buildPreprocessor, hnum, Bool.false_eq_true, if_false,
    resolvedDefault, hscan] at hbp
  cases hak : registryKeys available with
  | nil => rw [hak] at hbp; exact (Except.noConfusion hbp)
  | cons c rest =>
    rw [hak] at hbp
    simp only [mkCategorical] at hbp
    injection hbp with h
    constructor
    · rw [← h]
    · rw [← h]
      exact rfl

/-- Witness for the amended C4: the `Custom`-only registry again. -/
theorem scan_exhausted_default_falls_back_witness :
    get_available_components customOnlyState.registry
        (mergedProps customOnlyState (some numericalProps)) none none
      = Except.ok [("Custom", meanComp)] ∧
    (numericalColumnsOf (mergedProps customOnlyState (some numericalProps))).isEmpty
      = false ∧
    resolveDefault (registryKeys [("Custom", meanComp)]) none none = none ∧
    ((ConfigurationSpace.mk ⟨["Custom"], "Custom"⟩
        [("Custom", ["with_mean"])]).choice.choices
      = registryKeys [("Custom", meanComp)] ∧
    (ConfigurationSpace.mk ⟨["Custom"], "Custom"⟩
        [("Custom", ["with_mean"])]).choice.choices.head?
      = some (ConfigurationSpace.mk ⟨["Custom"], "Custom"⟩
        [("Custom", ["with_mean"])]).choice.default_value) :=
  ⟨by rfl, by decide, by decide,
    scan_exhausted_default_falls_back customOnlyState (some numericalProps)
      none none _ _ (by rfl) (by decide) (by decide) (by rfl)⟩

end ScalerChoiceSpec
